import Mathlib

/-!
Verification development for the SAPp-Opener shortcut-code interpreter,
configuration-resolution logic and SAP-GUI launcher (`main.py`).

The configuration is an INI-style two-level string map.  We embed it as an
association list of sections, each section an association list of options,
mirroring `configparser`'s insertion-ordered dictionaries.  `configparser`
lower-cases option keys on insertion and lookup, so stored option keys are
written already lower-cased (e.g. `qg1` for the `QG1` default client).
`ConfigParser.has_option`/`get` and `SectionProxy.get` make every
`[DEFAULT]` option visible through every section, shadowed by the
section's own options; the embedding models that inheritance chain in
`ConfigManager.cfg_get`.

Stateful parts (the `_merge_default_config` loop, `write_position`) are
embedded as explicit state-passing functions; file I/O in
`ConfigManager.__init__` is a `FileState` argument, and the uncaught
`configparser.ParsingError` becomes an `Except` error value.
-/

namespace SAPpOpener

/-- First-occurrence lookup in an association list keyed by strings,
mirroring Python `dict` access (`configparser` keys are unique, so first
occurrence is the binding). -/
def getKey {α : Type} : List (String × α) → String → Option α
  | [], _ => none
  | (k', v) :: rest, k => if k' = k then some v else getKey rest k

/-- `d[k] = v` on an association list: replace the first binding of `k`
in place, or append a new binding, mirroring insertion-ordered `dict`
update. -/
def setKey {α : Type} : List (String × α) → String → α → List (String × α)
  | [], k, v => [(k, v)]
  | (k', v') :: rest, k, v =>
      if k' = k then (k, v) :: rest else (k', v') :: setKey rest k v

/-- One section of the INI file: option key ↦ string value. -/
abbrev Sect := List (String × String)

/-- The whole parsed configuration: section name ↦ section. -/
abbrev Config := List (String × Sect)

/-- `config[name]` with a `[]` fallback; after `ConfigManager.__init__`
all four sections exist, so the fallback is never hit by the program. -/
def getSectD (c : Config) (name : String) : Sect :=
  (getKey c name).getD []

/-- `CURRENT_VERSION` constant of `main.py`. -/
def CURRENT_VERSION : String := "v.1.1.0"

/-- `ConfigManager.find_sapshcut_exe`: return the configured
`sapshcut_path` when the option exists, otherwise the outcome of the
filesystem search, which is a path string or the literal sentinel
`"None"`.  The search itself is outside the program (OS directories), so
its outcome is the `searchResult` parameter. -/
def find_sapshcut_exe (c : Config) (searchResult : String) : String :=
  match getKey (getSectD c "DEFAULT") "sapshcut_path" with
  | some p => p
  | none => searchResult

/-- The `DEFAULT` section of `ConfigManager._default_config`, with the
`sapshcut_path` value passed in (the source computes it by calling
`find_sapshcut_exe`). -/
def defaultDEFAULTOptions (p : String) : Sect :=
  [("app_name", "SAP Opener"),
   ("version", CURRENT_VERSION),
   ("position_x", "0"),
   ("position_y", "0"),
   ("sapshcut_path", p),
   ("default_sap_lang", "EN")]

/-- The `DEFAULT_SAP_CLIENT` section of `ConfigManager._default_config`. -/
def defaultClientOptions : Sect :=
  [("qg1", "200")]

/-- The `APP` section of `ConfigManager._default_config`. -/
def defaultAppOptions : Sect :=
  [("excel", "C:\\Program Files (x86)\\Microsoft Office\\root\\Office16\\EXCEL.EXE")]

/-- The `WEB` section of `ConfigManager._default_config`. -/
def defaultWebOptions : Sect :=
  [("w", "https://pl.wikipedia.org/wiki/")]

/-- `ConfigManager._default_config`, with option keys lower-cased as
`configparser` stores them.  The `sapshcut_path` default is computed from
the current configuration via `find_sapshcut_exe`. -/
def default_config (c : Config) (searchResult : String) : Config :=
  [("DEFAULT", defaultDEFAULTOptions (find_sapshcut_exe c searchResult)),
   ("DEFAULT_SAP_CLIENT", defaultClientOptions),
   ("APP", defaultAppOptions),
   ("WEB", defaultWebOptions)]

/-- Body of the inner loop of `ConfigManager._merge_default_config`: merge
one default option into a section (overwrite `version`, keep any other
existing key, add missing keys). -/
def mergeStep (sec : Sect) (kv : String × String) : Sect :=
  if kv.1 = "version" then setKey sec kv.1 kv.2
  else if (getKey sec kv.1).isSome then sec
  else setKey sec kv.1 kv.2

/-- Inner loop of `ConfigManager._merge_default_config` over one default
section's options. -/
def mergeOptions (sec : Sect) (options : Sect) : Sect :=
  options.foldl mergeStep sec

/-- One iteration of the outer loop of
`ConfigManager._merge_default_config`: a missing section is installed
whole, an existing one merged option by option. -/
def mergeSection (c : Config) (name : String) (options : Sect) : Config :=
  match getKey c name with
  | some sec => setKey c name (mergeOptions sec options)
  | none => setKey c name options

/-- `ConfigManager._merge_default_config`: fold the built-in defaults into
the current configuration.  The defaults are computed once, from the
configuration as it is before the loop runs, exactly as in the source. -/
def merge_default_config (c : Config) (searchResult : String) : Config :=
  (default_config c searchResult).foldl (fun acc p => mergeSection acc p.1 p.2) c

/-- State of the settings file on disk when `ConfigManager` is
constructed. -/
inductive FileState where
  | missing
  | corrupt
  | valid (c : Config)

/-- The configuration-loading part of `ConfigManager.__init__`.
A missing file is recreated from `_default_config` (computed over the
still-empty parser) and then merged; an existing parsable file is loaded
and merged; a corrupt file makes `configparser.read` raise
`configparser.ParsingError`, which no caller catches. -/
def init_config (fs : FileState) (searchResult : String) : Except String Config :=
  match fs with
  | FileState.missing =>
      Except.ok (merge_default_config (default_config [] searchResult) searchResult)
  | FileState.corrupt => Except.error "configparser.ParsingError"
  | FileState.valid c => Except.ok (merge_default_config c searchResult)

/-- The state of a constructed `ConfigManager` that the interpreter and
launcher read: the parsed configuration plus the two fields derived in
`__init__` (`self.sappath`, `self.default_lang`). -/
structure ConfigManager where
  config : Config
  sappath : String
  default_lang : String

/-- `configparser` option lookup in a section, with the DEFAULT-section
inheritance that `ConfigParser.get` and `SectionProxy.get` perform: the
section's own option shadows a `[DEFAULT]` option of the same key, and a
`[DEFAULT]` option is visible through every section.  `has_option`
follows the same chain, so an option "exists" in a section exactly when
this returns `some`. -/
def ConfigManager.cfg_get (cm : ConfigManager) (sect key : String) : Option String :=
  match getKey (getSectD cm.config sect) key with
  | some v => some v
  | none => getKey (getSectD cm.config "DEFAULT") key

/-- `ConfigManager.get_def_client`: per-system default client via
`SectionProxy.get` on `DEFAULT_SAP_CLIENT`, which falls back to a
`[DEFAULT]` option of the same name before returning `None`. -/
def ConfigManager.get_def_client (cm : ConfigManager) (system : String) : Option String :=
  cm.cfg_get "DEFAULT_SAP_CLIENT" system

/-- `ConfigManager.get_path`: resolve a shortcut name with
`has_option`/`get` against the `APP` section first, then `WEB`; the
second component is the section tag.  Both `has_option` and `get` chain
to the `[DEFAULT]` section, so a `[DEFAULT]` option key resolves here
with tag `APP` and the `[DEFAULT]` value even when neither shortcut
table binds it. -/
def ConfigManager.get_path (cm : ConfigManager) (shortcut : String) : Option (String × String) :=
  match cm.cfg_get "APP" shortcut with
  | some link => some (link, "APP")
  | none =>
    match cm.cfg_get "WEB" shortcut with
    | some link => some (link, "WEB")
    | none => none

/-- External action requested by the interpreter: spawn a configured
application, open a URL, launch SAP GUI with the resolved parameter
tuple, or do nothing. -/
inductive Dispatch where
  | application (path : String)
  | webpage (url : String)
  | sapGui (client language system transaction : Option String)
  | typeNotRecognized
  | noAction
deriving DecidableEq

/-- `InputProcessor.process_configured`: dispatch a resolved shortcut by
its section tag. -/
def process_configured (details : String × String) : Dispatch :=
  let (link, ty) := details
  if ty = "APP" then Dispatch.application link
  else if ty = "WEB" then Dispatch.webpage link
  else Dispatch.typeNotRecognized

/-- `input_string.lower()`: character-wise lower-casing (ASCII case
mapping; full-Unicode case folding is out of scope). -/
def pyToLower (s : String) : String :=
  (s.toList.map Char.toLower).asString

/-- `s[:n]` on a Python string. -/
def strTake (s : String) (n : Nat) : String :=
  (s.toList.take n).asString

/-- `s[n:]` on a Python string. -/
def strDrop (s : String) (n : Nat) : String :=
  (s.toList.drop n).asString

/-- `InputProcessor.process_unconfigured` together with the four
`run_*` handlers: length-based decomposition into the
(client, language, system, transaction) tuple passed to `run_sap_gui`,
or no action for an unhandled length. -/
def process_unconfigured (cm : ConfigManager) (s : String) : Dispatch :=
  if s.length = 3 then
    Dispatch.sapGui (cm.get_def_client s) (some cm.default_lang) (some s) none
  else if s.length = 5 then
    let language := strTake s 2
    let system := strDrop s 2
    Dispatch.sapGui (cm.get_def_client system) (some language) (some system) none
  else if s.length = 6 then
    let system := strTake s 3
    let client := strDrop s 3
    Dispatch.sapGui (some client) (some cm.default_lang) (some system) none
  else if s.length = 8 then
    let language := strTake s 2
    let system := strTake (strDrop s 2) 3
    let client := strDrop s 5
    Dispatch.sapGui (some client) (some language) (some system) none
  else Dispatch.noAction

/-- `InputProcessor.__init__`: lower-case the input, try the configured
shortcut tables, fall back to length-based decomposition. -/
def process (cm : ConfigManager) (input_string : String) : Dispatch :=
  let s := pyToLower input_string
  match cm.get_path s with
  | some details => process_configured details
  | none => process_unconfigured cm s

/-- Outcome of `InputProcessor.run_sap_gui`: report the launcher as not
installed, or spawn the given command line. -/
inductive SapAction where
  | notInstalled
  | run (command : List String)
deriving DecidableEq

/-- Python truthiness of an optional string, as tested by the
`if client:` guards in `run_sap_gui` (`None` and `""` are falsy). -/
def truthy : Option String → Bool
  | none => false
  | some s => !(s = "")

/-- `InputProcessor.run_sap_gui`: start from `[sappath]`, stop with a
report when the path is the `"None"` sentinel, otherwise append the four
flags guarded by truthiness and spawn the command. -/
def run_sap_gui (cm : ConfigManager)
    (client language system transaction : Option String) : SapAction :=
  let command := [cm.sappath]
  if command = ["None"] then SapAction.notInstalled
  else
    let command := if truthy client then command ++ ["-client=" ++ client.getD ""] else command
    let command := if truthy language then command ++ ["-language=" ++ language.getD ""] else command
    let command := if truthy system then command ++ ["-system=" ++ system.getD ""] else command
    let command := if truthy transaction then command ++ ["-transaction=" ++ transaction.getD ""] else command
    SapAction.run command

/-- Spec-side description of one SAP-GUI flag: present values contribute
`name=value`, absent ones contribute nothing. -/
def flagOf (name : String) (v : Option String) : List String :=
  match v with
  | some s => if s = "" then [] else [name ++ s]
  | none => []

/-- Spec-side description of the whole SAP-GUI command line: the launcher
path followed by the four flags, in the fixed order, each present exactly
when its parameter is. -/
def sapCommandSpec (path : String)
    (client language system transaction : Option String) : List String :=
  path :: (flagOf "-client=" client ++ flagOf "-language=" language
    ++ flagOf "-system=" system ++ flagOf "-transaction=" transaction)

/-- `ConfigManager.write_position`: store both coordinates under their
resolution-specific keys and save.  The `str`/`getint` round trip through
the INI text layer is out of scope (configparser persistence), so the
position store maps keys to integers directly. -/
def write_position (sec : List (String × Int)) (x y : Int)
    (key_x key_y : String) : List (String × Int) :=
  setKey (setKey sec key_x x) key_y y

/-- `ConfigManager.get_position`: read both coordinates (default 0) and
clamp each one that exceeds the corresponding screen extent to
extent − 200. -/
def get_position (sec : List (String × Int)) (key_x key_y : String)
    (screen_width screen_height : Int) : Int × Int :=
  let x := (getKey sec key_x).getD 0
  let y := (getKey sec key_y).getD 0
  let x := if x > screen_width then screen_width - 200 else x
  let y := if y > screen_height then screen_height - 200 else y
  (x, y)

/-- A position lies within the visible screen of the given extents. -/
def withinScreen (p : Int × Int) (w h : Int) : Prop :=
  0 ≤ p.1 ∧ p.1 ≤ w ∧ 0 ≤ p.2 ∧ p.2 ≤ h

/-- A `ConfigManager` as constructed on a fresh install: the built-in
default configuration, a found launcher and the fallback language. -/
def cmEx : ConfigManager :=
  { config := default_config [] "None"
    sappath := "C:\\sap\\sapshcut.exe"
    default_lang := "EN" }

/-- A `ConfigManager` whose tables bind the same name in both `APP` and
`WEB`, and a `WEB` name of length 5, to exercise precedence. -/
def cmShadow : ConfigManager :=
  { config :=
      [("APP", [("qg1", "notepad.exe")]),
       ("WEB", [("qg1", "https://example.org/"), ("abcde", "https://abcde.example/")])]
    sappath := "C:\\sap\\sapshcut.exe"
    default_lang := "EN" }

/-- A `ConfigManager` whose `[DEFAULT]` section carries an option key that
is also a `WEB` shortcut name, so DEFAULT-section inheritance shadows the
stored `WEB` target. -/
def cmDefaultShadow : ConfigManager :=
  { config :=
      [("DEFAULT", [("w", "winword.exe")]),
       ("DEFAULT_SAP_CLIENT", []),
       ("APP", []),
       ("WEB", [("w", "https://pl.wikipedia.org/wiki/")])]
    sappath := "C:\\sap\\sapshcut.exe"
    default_lang := "EN" }

/-- A `ConfigManager` whose `[DEFAULT]` section carries a three-character
option key (`abc`) while both shortcut tables and the per-system client
table are empty: `abc` then resolves through DEFAULT-section inheritance,
both in `get_path` and in `get_def_client`. -/
def cmDefKey3 : ConfigManager :=
  { config :=
      [("DEFAULT", [("abc", "winword.exe")]),
       ("DEFAULT_SAP_CLIENT", []),
       ("APP", []),
       ("WEB", [])]
    sappath := "C:\\sap\\sapshcut.exe"
    default_lang := "EN" }

theorem getKey_setKey_self {α : Type} (l : List (String × α)) (k : String) (v : α) :
    getKey (setKey l k v) k = some v := by
  induction l with
  | nil => simp [setKey, getKey]
  | cons p rest ih =>
      obtain ⟨k', v'⟩ := p
      by_cases h : k' = k
      · simp [setKey, h, getKey]
      · simp [setKey, h, getKey, ih]

theorem getKey_setKey_ne {α : Type} (l : List (String × α)) (k k' : String) (v : α)
    (h : k' ≠ k) : getKey (setKey l k v) k' = getKey l k' := by
  induction l with
  | nil => simp [setKey, getKey, Ne.symm h]
  | cons p rest ih =>
      obtain ⟨k₀, v₀⟩ := p
      by_cases h0 : k₀ = k
      · subst h0; simp [setKey, getKey, Ne.symm h]
      · by_cases h1 : k₀ = k'
        · subst h1; simp [setKey, h0, getKey]
        · simp [setKey, h0, getKey, h1, ih]

theorem setKey_eq_self {α : Type} (l : List (String × α)) (k : String) (v : α)
    (h : getKey l k = some v) : setKey l k v = l := by
  induction l with
  | nil => simp [getKey] at h
  | cons p rest ih =>
      obtain ⟨k₀, v₀⟩ := p
      by_cases h0 : k₀ = k
      · subst h0
        simp [getKey] at h
        simp [setKey, h]
      · simp [getKey, h0] at h
        simp [setKey, h0, ih h]

theorem getKey_isSome_setKey_of {α : Type} (l : List (String × α)) (k k' : String) (v : α)
    (h : (getKey l k').isSome) : (getKey (setKey l k v) k').isSome := by
  by_cases hk : k' = k
  · subst hk; rw [getKey_setKey_self]; rfl
  · rwa [getKey_setKey_ne _ _ _ _ hk]

theorem getKey_isSome_of_mem {α : Type} (l : List (String × α)) (k : String) (v : α)
    (h : (k, v) ∈ l) : (getKey l k).isSome := by
  induction l with
  | nil => cases h
  | cons p rest ih =>
      obtain ⟨k₀, v₀⟩ := p
      by_cases h0 : k₀ = k
      · simp [getKey, h0]
      · rcases List.mem_cons.mp h with heq | hmem
        · cases heq; exact absurd rfl h0
        · simp [getKey, h0, ih hmem]

/-! Interpreter and launcher claims. -/

theorem cfg_get_eq_own_of_default_none (cm : ConfigManager) (sect k : String)
    (hd : getKey (getSectD cm.config "DEFAULT") k = none) :
    cm.cfg_get sect k = getKey (getSectD cm.config sect) k := by
  cases h : getKey (getSectD cm.config sect) k <;>
    simp [ConfigManager.cfg_get, h, hd]

theorem get_path_none_parts (cm : ConfigManager) (s : String)
    (h : cm.get_path s = none) :
    getKey (getSectD cm.config "APP") s = none ∧
    getKey (getSectD cm.config "WEB") s = none ∧
    getKey (getSectD cm.config "DEFAULT") s = none := by
  cases hA : getKey (getSectD cm.config "APP") s with
  | some l => simp [ConfigManager.get_path, ConfigManager.cfg_get, hA] at h
  | none =>
      cases hD : getKey (getSectD cm.config "DEFAULT") s with
      | some d =>
          simp [ConfigManager.get_path, ConfigManager.cfg_get, hA, hD] at h
      | none =>
          cases hW : getKey (getSectD cm.config "WEB") s with
          | some l =>
              simp [ConfigManager.get_path, ConfigManager.cfg_get, hA, hD, hW] at h
          | none => exact ⟨rfl, rfl, rfl⟩

/-- C1 (amended): an input that `get_path` resolves — in the `APP` table,
the `WEB` table or, through DEFAULT-section inheritance, among the
`[DEFAULT]` option keys — is dispatched as an application launch or a
webpage open with the resolved target, and never reaches length-based
decomposition or the silent no-op, whatever the input's length.  The
resolved target is the stored `APP` entry whenever the name is in the
`APP` table, and the stored `WEB` entry whenever the name is in the
`WEB` table and shadowed by neither an `APP` entry nor a `[DEFAULT]`
key. -/
theorem configured_shortcut_precedence (cm : ConfigManager) (s : String)
    (hn : pyToLower s = s) (link ty : String)
    (hp : cm.get_path s = some (link, ty)) :
    ((ty = "APP" ∧ process cm s = Dispatch.application link) ∨
     (ty = "WEB" ∧ process cm s = Dispatch.webpage link)) ∧
    (∀ a b c d, process cm s ≠ Dispatch.sapGui a b c d) ∧
    process cm s ≠ Dispatch.noAction ∧
    (∀ a, getKey (getSectD cm.config "APP") s = some a →
      link = a ∧ ty = "APP") ∧
    (∀ w, getKey (getSectD cm.config "WEB") s = some w →
      getKey (getSectD cm.config "APP") s = none →
      getKey (getSectD cm.config "DEFAULT") s = none →
      link = w ∧ ty = "WEB") := by
  have hty : ty = "APP" ∨ ty = "WEB" := by
    cases h1 : cm.cfg_get "APP" s with
    | some l =>
        have he : cm.get_path s = some (l, "APP") := by
          simp [ConfigManager.get_path, h1]
        have := he.symm.trans hp
        simp at this
        exact Or.inl this.2.symm
    | none =>
        cases h2 : cm.cfg_get "WEB" s with
        | some l =>
            have he : cm.get_path s = some (l, "WEB") := by
              simp [ConfigManager.get_path, h1, h2]
            have := he.symm.trans hp
            simp at this
            exact Or.inr this.2.symm
        | none =>
            have he : cm.get_path s = none := by
              simp [ConfigManager.get_path, h1, h2]
            rw [he] at hp
            cases hp
  have hproc : process cm s = process_configured (link, ty) := by
    simp [process, hn, hp]
  have happ : ∀ a, getKey (getSectD cm.config "APP") s = some a →
      link = a ∧ ty = "APP" := by
    intro a ha
    have h1 : cm.cfg_get "APP" s = some a := by
      simp [ConfigManager.cfg_get, ha]
    have he : cm.get_path s = some (a, "APP") := by
      simp [ConfigManager.get_path, h1]
    have := he.symm.trans hp
    simp at this
    exact ⟨this.1.symm, this.2.symm⟩
  have hweb : ∀ w, getKey (getSectD cm.config "WEB") s = some w →
      getKey (getSectD cm.config "APP") s = none →
      getKey (getSectD cm.config "DEFAULT") s = none →
      link = w ∧ ty = "WEB" := by
    intro w hw hA0 hD0
    have h1 : cm.cfg_get "APP" s = none := by
      simp [ConfigManager.cfg_get, hA0, hD0]
    have h2 : cm.cfg_get "WEB" s = some w := by
      simp [ConfigManager.cfg_get, hw]
    have he : cm.get_path s = some (w, "WEB") := by
      simp [ConfigManager.get_path, h1, h2]
    have := he.symm.trans hp
    simp at this
    exact ⟨this.1.symm, this.2.symm⟩
  rcases hty with h | h
  · subst h
    have hres : process cm s = Dispatch.application link := by
      rw [hproc]; simp [process_configured]
    rw [hres]
    exact ⟨Or.inl ⟨rfl, rfl⟩, fun a b c d => by simp, by simp,
      fun a ha => (happ a ha).imp id id,
      fun w hw hA0 hD0 => hweb w hw hA0 hD0⟩
  · subst h
    have hres : process cm s = Dispatch.webpage link := by
      rw [hproc]; simp [process_configured]
    rw [hres]
    exact ⟨Or.inr ⟨rfl, rfl⟩, fun a b c d => by simp, by simp,
      fun a ha => happ a ha,
      fun w hw hA0 hD0 => hweb w hw hA0 hD0⟩

/-- C1 counterexample: `w` is a configured `WEB`-table shortcut, yet a
`[DEFAULT]` option under the same name makes the program dispatch it in
application mode with the `[DEFAULT]` value instead of opening the
stored URL. -/
theorem configured_shortcut_default_shadow_cex :
    getKey (getSectD cmDefaultShadow.config "WEB") "w" =
      some "https://pl.wikipedia.org/wiki/" ∧
    process cmDefaultShadow "w" = Dispatch.application "winword.exe" ∧
    process cmDefaultShadow "w" ≠
      Dispatch.webpage "https://pl.wikipedia.org/wiki/" := by
  refine ⟨by decide, by decide, by decide⟩

theorem configured_shortcut_precedence_witness :
    process cmShadow "abcde" = Dispatch.webpage "https://abcde.example/" := by
  have h := configured_shortcut_precedence cmShadow "abcde" (by decide)
    "https://abcde.example/" "WEB" (by decide)
  rcases h.1 with ⟨h1, _⟩ | ⟨_, h2⟩
  · exact absurd h1 (by decide)
  · exact h2

/-- C2 counterexample: with the built-in default configuration, the
length-8 input `app_name` is in neither shortcut table, yet
DEFAULT-section inheritance resolves it in `has_option('APP', ...)` and
the program spawns `SAP Opener` as an application instead of decomposing
the input for SAP GUI. -/
theorem length8_default_key_cex :
    ("app_name" : String).length = 8 ∧
    getKey (getSectD cmEx.config "APP") "app_name" = none ∧
    getKey (getSectD cmEx.config "WEB") "app_name" = none ∧
    process cmEx "app_name" = Dispatch.application "SAP Opener" := by
  refine ⟨by decide, by decide, by decide, by decide⟩

/-- C2 (amended): a length-8 input that `get_path` does not resolve —
in neither shortcut table and, through DEFAULT-section inheritance, not
a `[DEFAULT]` option key either — is dispatched to SAP GUI with language
`s[0:2]`, system `s[2:5]`, client `s[5:8]` and no transaction, whatever
the characters are. -/
theorem length8_decomposition (cm : ConfigManager) (s : String)
    (hn : pyToLower s = s) (h8 : s.length = 8)
    (hns : cm.get_path s = none) :
    process cm s = Dispatch.sapGui (some (strDrop s 5)) (some (strTake s 2))
      (some (strTake (strDrop s 2) 3)) none := by
  simp [process, hn, hns, process_unconfigured, h8]

theorem length8_decomposition_witness :
    process cmEx "enqg1200" =
      Dispatch.sapGui (some "200") (some "en") (some "qg1") none := by
  exact (length8_decomposition cmEx "enqg1200" (by decide) (by decide)
    (by decide)).trans (by decide)

/-- C3 counterexample: a three-character `[DEFAULT]` option key is
resolved by `get_path` through DEFAULT-section inheritance and spawned
as an application, so the claimed SAP-GUI launch with system = input
never happens for it. -/
theorem length3_default_key_cex :
    ("abc" : String).length = 3 ∧
    getKey (getSectD cmDefKey3.config "APP") "abc" = none ∧
    getKey (getSectD cmDefKey3.config "WEB") "abc" = none ∧
    process cmDefKey3 "abc" = Dispatch.application "winword.exe" ∧
    process cmDefKey3 "abc" ≠
      Dispatch.sapGui none (some "EN") (some "abc") none := by
  refine ⟨by decide, by decide, by decide, by decide, by decide⟩

/-- C3 (amended): a length-3 input that `get_path` does not resolve (in
neither shortcut table nor, through DEFAULT-section inheritance, among
the `[DEFAULT]` option keys) is dispatched to SAP GUI with the whole
input as system, the client configured for that system in
`DEFAULT_SAP_CLIENT` (absent when unconfigured — such an input being no
`[DEFAULT]` key, the `SectionProxy.get` fallback cannot fire), the
configured default language, and no transaction. -/
theorem length3_defaulted (cm : ConfigManager) (s : String)
    (hn : pyToLower s = s) (h3 : s.length = 3)
    (hns : cm.get_path s = none) :
    process cm s =
      Dispatch.sapGui (getKey (getSectD cm.config "DEFAULT_SAP_CLIENT") s)
        (some cm.default_lang) (some s) none := by
  obtain ⟨hA, hW, hD⟩ := get_path_none_parts cm s hns
  have hdc : cm.get_def_client s =
      getKey (getSectD cm.config "DEFAULT_SAP_CLIENT") s := by
    unfold ConfigManager.get_def_client
    exact cfg_get_eq_own_of_default_none cm "DEFAULT_SAP_CLIENT" s hD
  simp [process, hn, hns, process_unconfigured, h3, hdc]

theorem length3_defaulted_witness :
    process cmEx "qg1" = Dispatch.sapGui (some "200") (some "EN") (some "qg1") none ∧
    process cmEx "abc" = Dispatch.sapGui none (some "EN") (some "abc") none := by
  constructor
  · exact (length3_defaulted cmEx "qg1" (by decide) (by decide) (by decide)).trans
      (by decide)
  · exact (length3_defaulted cmEx "abc" (by decide) (by decide) (by decide)).trans
      (by decide)

/-- C4 counterexample: input `enabc` of length 5 is resolved by no
table, its system substring `abc` has no configured `DEFAULT_SAP_CLIENT`
entry, yet `SectionProxy.get` falls back to the `[DEFAULT]` option `abc`
and the client is `winword.exe` where the claim says absent. -/
theorem length5_default_client_cex :
    ("enabc" : String).length = 5 ∧
    cmDefKey3.get_path "enabc" = none ∧
    getKey (getSectD cmDefKey3.config "DEFAULT_SAP_CLIENT") "abc" = none ∧
    process cmDefKey3 "enabc" =
      Dispatch.sapGui (some "winword.exe") (some "en") (some "abc") none := by
  refine ⟨by decide, by decide, by decide, by decide⟩

/-- C4 (amended): a length-5 input that `get_path` does not resolve
decomposes as language `s[0:2]`, system `s[2:5]`, with the client taken
by `get_def_client` — the `DEFAULT_SAP_CLIENT` entry for the system when
present, else through DEFAULT-section inheritance the `[DEFAULT]` option
under the system's name, absent only when neither exists; a length-6
input decomposes as system `s[0:3]`, client `s[3:6]` with the default
language — in both cases whatever the characters are. -/
theorem length5_length6_decomposition (cm : ConfigManager) (s : String)
    (hn : pyToLower s = s) (hns : cm.get_path s = none) :
    (s.length = 5 →
      process cm s = Dispatch.sapGui (cm.get_def_client (strDrop s 2))
        (some (strTake s 2)) (some (strDrop s 2)) none) ∧
    (s.length = 6 →
      process cm s = Dispatch.sapGui (some (strDrop s 3))
        (some cm.default_lang) (some (strTake s 3)) none) := by
  constructor
  · intro h5; simp [process, hn, hns, process_unconfigured, h5]
  · intro h6; simp [process, hn, hns, process_unconfigured, h6]

theorem length5_length6_decomposition_witness :
    process cmEx "enqg1" =
      Dispatch.sapGui (some "200") (some "en") (some "qg1") none ∧
    process cmEx "qg1300" =
      Dispatch.sapGui (some "300") (some "EN") (some "qg1") none := by
  constructor
  · exact ((length5_length6_decomposition cmEx "enqg1" (by decide) (by decide)).1
      (by decide)).trans (by decide)
  · exact ((length5_length6_decomposition cmEx "qg1300" (by decide) (by decide)).2
      (by decide)).trans (by decide)

/-- C5 counterexample: with the built-in default configuration, the
length-7 input `version` matches no shortcut table, yet DEFAULT-section
inheritance resolves it and an application spawn of `v.1.1.0` is
attempted (printing an error on failure) instead of a silent no-op. -/
theorem unrecognized_default_key_cex :
    ("version" : String).length = 7 ∧
    getKey (getSectD cmEx.config "APP") "version" = none ∧
    getKey (getSectD cmEx.config "WEB") "version" = none ∧
    process cmEx "version" = Dispatch.application "v.1.1.0" := by
  refine ⟨by decide, by decide, by decide, by decide⟩

/-- C5 (amended): an input whose length is none of 3, 5, 6, 8 and that
`get_path` does not resolve — matching neither shortcut table nor,
through DEFAULT-section inheritance, a `[DEFAULT]` option key — produces
no action at all: no SAP-GUI dispatch, no application spawn, no URL open
and no error. -/
theorem unrecognized_input_no_action (cm : ConfigManager) (s : String)
    (hn : pyToLower s = s) (hns : cm.get_path s = none)
    (h3 : s.length ≠ 3) (h5 : s.length ≠ 5) (h6 : s.length ≠ 6)
    (h8 : s.length ≠ 8) :
    process cm s = Dispatch.noAction := by
  simp [process, hn, hns, process_unconfigured, h3, h5, h6, h8]

theorem unrecognized_input_no_action_witness :
    process cmEx "qg12" = Dispatch.noAction := by
  exact unrecognized_input_no_action cmEx "qg12" (by decide) (by decide)
    (by decide) (by decide) (by decide) (by decide)

/-- C6: `run_sap_gui` reports unavailability and spawns nothing when the
launcher path is the `"None"` sentinel, and otherwise spawns exactly the
launcher path followed by the `-client=`, `-language=`, `-system=`,
`-transaction=` flags in that order, each present exactly when its
parameter is (Python-truthy). -/
theorem run_sap_gui_command (cm : ConfigManager)
    (client language system transaction : Option String) :
    run_sap_gui cm client language system transaction =
      if cm.sappath = "None" then SapAction.notInstalled
      else SapAction.run (sapCommandSpec cm.sappath client language system transaction) := by
  unfold run_sap_gui sapCommandSpec
  rcases client with _ | c <;> rcases language with _ | l <;>
    rcases system with _ | sy <;> rcases transaction with _ | t <;>
      simp [truthy, flagOf] <;> split_ifs <;> simp_all

/-- C10: a name bound in both the `APP` and `WEB` tables resolves to the
`APP` entry with the `APP` tag — the `APP` table is consulted first — and
the interpreter dispatches it as an application launch. -/
theorem app_shadows_web (cm : ConfigManager) (name a w : String)
    (ha : getKey (getSectD cm.config "APP") name = some a)
    (hw : getKey (getSectD cm.config "WEB") name = some w) :
    cm.get_path name = some (a, "APP") ∧
    (pyToLower name = name → process cm name = Dispatch.application a) := by
  have h1 : cm.get_path name = some (a, "APP") := by
    simp [ConfigManager.get_path, ConfigManager.cfg_get, ha]
  refine ⟨h1, fun hn => ?_⟩
  simp [process, hn, h1, process_configured]

theorem app_shadows_web_witness :
    cmShadow.get_path "qg1" = some ("notepad.exe", "APP") ∧
    process cmShadow "qg1" = Dispatch.application "notepad.exe" := by
  have h := app_shadows_web cmShadow "qg1" "notepad.exe" "https://example.org/"
    (by decide) (by decide)
  exact ⟨h.1, h.2 (by decide)⟩

/-! Lemmas on the default-configuration merge (claim C7). -/

theorem mergeStep_isSome_preserve (sec : Sect) (kv : String × String) (k : String)
    (h : (getKey sec k).isSome) : (getKey (mergeStep sec kv) k).isSome := by
  unfold mergeStep
  split_ifs with h1 h2
  · exact getKey_isSome_setKey_of _ _ _ _ h
  · exact h
  · exact getKey_isSome_setKey_of _ _ _ _ h

theorem mergeStep_self_isSome (sec : Sect) (kv : String × String) :
    (getKey (mergeStep sec kv) kv.1).isSome := by
  unfold mergeStep
  split_ifs with h1 h2
  · rw [getKey_setKey_self]; rfl
  · exact h2
  · rw [getKey_setKey_self]; rfl

theorem mergeStep_getKey_ne (sec : Sect) (kv : String × String) (k : String)
    (h : k ≠ kv.1) : getKey (mergeStep sec kv) k = getKey sec k := by
  unfold mergeStep
  split_ifs with h1 h2
  · exact getKey_setKey_ne _ _ _ _ h
  · rfl
  · exact getKey_setKey_ne _ _ _ _ h

theorem mergeStep_preserve (sec : Sect) (kv : String × String) (k : String) (v : String)
    (hk : k ≠ "version") (h : getKey sec k = some v) :
    getKey (mergeStep sec kv) k = some v := by
  unfold mergeStep
  split_ifs with h1 h2
  · rw [getKey_setKey_ne]
    · exact h
    · rw [h1]; exact hk
  · exact h
  · have hne : k ≠ kv.1 := by
      rintro rfl
      rw [h] at h2
      simp at h2
    rw [getKey_setKey_ne _ _ _ _ hne]; exact h

theorem mergeOptions_cons (sec : Sect) (kv : String × String) (rest : Sect) :
    mergeOptions sec (kv :: rest) = mergeOptions (mergeStep sec kv) rest := rfl

theorem mergeOptions_isSome_preserve (opts : Sect) :
    ∀ (sec : Sect) (k : String), (getKey sec k).isSome →
      (getKey (mergeOptions sec opts) k).isSome := by
  induction opts with
  | nil => intro sec k h; exact h
  | cons kv rest ih =>
      intro sec k h
      rw [mergeOptions_cons]
      exact ih _ _ (mergeStep_isSome_preserve _ _ _ h)

theorem mergeOptions_isSome_of_mem (opts : Sect) :
    ∀ (sec : Sect) (k : String) (v : String), (k, v) ∈ opts →
      (getKey (mergeOptions sec opts) k).isSome := by
  induction opts with
  | nil => intro sec k v h; cases h
  | cons kv rest ih =>
      intro sec k v h
      rw [mergeOptions_cons]
      rcases List.mem_cons.mp h with heq | hmem
      · subst heq
        exact mergeOptions_isSome_preserve _ _ _ (mergeStep_self_isSome _ _)
      · exact ih _ _ _ hmem

theorem mergeOptions_getKey_not_mem (opts : Sect) :
    ∀ (sec : Sect) (k : String), k ∉ opts.map Prod.fst →
      getKey (mergeOptions sec opts) k = getKey sec k := by
  induction opts with
  | nil => intro sec k _; rfl
  | cons kv rest ih =>
      intro sec k h
      rw [List.map_cons, List.mem_cons] at h
      push_neg at h
      rw [mergeOptions_cons, ih _ _ h.2, mergeStep_getKey_ne _ _ _ h.1]

theorem mergeOptions_preserve (opts : Sect) :
    ∀ (sec : Sect) (k v : String), k ≠ "version" → getKey sec k = some v →
      getKey (mergeOptions sec opts) k = some v := by
  induction opts with
  | nil => intro sec k v _ h; exact h
  | cons kv rest ih =>
      intro sec k v hk h
      rw [mergeOptions_cons]
      exact ih _ _ _ hk (mergeStep_preserve _ _ _ _ hk h)

theorem mergeOptions_eq_self (opts : Sect) :
    ∀ sec : Sect,
      (∀ kv ∈ opts, if kv.1 = "version" then getKey sec kv.1 = some kv.2
        else (getKey sec kv.1).isSome) →
      mergeOptions sec opts = sec := by
  induction opts with
  | nil => intro sec _; rfl
  | cons kv rest ih =>
      intro sec h
      have hkv := h kv (List.mem_cons_self _ _)
      have hstep : mergeStep sec kv = sec := by
        unfold mergeStep
        split_ifs with h1 h2
        · rw [h1] at hkv ⊢
          simp at hkv
          exact setKey_eq_self _ _ _ hkv
        · rfl
        · simp [h1] at hkv
          exact absurd hkv h2
      rw [mergeOptions_cons, hstep]
      exact ih sec (fun kv' h' => h kv' (List.mem_cons_of_mem _ h'))

theorem mergeSection_getKey_ne (c : Config) (name : String) (opts : Sect) (n : String)
    (h : n ≠ name) : getKey (mergeSection c name opts) n = getKey c n := by
  unfold mergeSection
  cases getKey c name with
  | some sec => exact getKey_setKey_ne _ _ _ _ h
  | none => exact getKey_setKey_ne _ _ _ _ h

theorem mergeSection_key_isSome (c : Config) (name : String) (opts : Sect)
    (k v : String) (hm : (k, v) ∈ opts) :
    ∃ sec, getKey (mergeSection c name opts) name = some sec ∧
      (getKey sec k).isSome := by
  unfold mergeSection
  cases h : getKey c name with
  | none =>
      exact ⟨opts, by rw [getKey_setKey_self], getKey_isSome_of_mem _ _ _ hm⟩
  | some sec0 =>
      exact ⟨mergeOptions sec0 opts, by rw [getKey_setKey_self],
        mergeOptions_isSome_of_mem _ _ _ _ hm⟩

theorem mergeSection_preserve (c : Config) (name : String) (opts : Sect)
    (n : String) (sec : Sect) (k v : String)
    (hn : getKey c n = some sec) (hk : k ≠ "version") (hv : getKey sec k = some v) :
    ∃ sec', getKey (mergeSection c name opts) n = some sec' ∧
      getKey sec' k = some v := by
  by_cases h : n = name
  · subst h
    unfold mergeSection
    rw [hn]
    exact ⟨mergeOptions sec opts, by rw [getKey_setKey_self],
      mergeOptions_preserve _ _ _ _ hk hv⟩
  · rw [mergeSection_getKey_ne _ _ _ _ h]
    exact ⟨sec, hn, hv⟩

theorem mergeOptions_default_version (sec : Sect) (p : String) :
    getKey (mergeOptions sec (defaultDEFAULTOptions p)) "version" =
      some CURRENT_VERSION := by
  show getKey (mergeOptions
    (mergeStep (mergeStep sec ("app_name", "SAP Opener")) ("version", CURRENT_VERSION))
    [("position_x", "0"), ("position_y", "0"), ("sapshcut_path", p),
     ("default_sap_lang", "EN")]) "version" = some CURRENT_VERSION
  rw [mergeOptions_getKey_not_mem]
  · have : mergeStep (mergeStep sec ("app_name", "SAP Opener"))
        ("version", CURRENT_VERSION) =
        setKey (mergeStep sec ("app_name", "SAP Opener")) "version" CURRENT_VERSION := by
      unfold mergeStep
      simp
    rw [this, getKey_setKey_self]
  · simp

theorem mergeSection_default_facts (c : Config) (p : String) :
    ∃ d, getKey (mergeSection c "DEFAULT" (defaultDEFAULTOptions p)) "DEFAULT" = some d ∧
      getKey d "version" = some CURRENT_VERSION ∧
      (getKey d "app_name").isSome ∧
      (getKey d "position_x").isSome ∧
      (getKey d "position_y").isSome ∧
      (getKey d "sapshcut_path").isSome ∧
      (getKey d "default_sap_lang").isSome := by
  unfold mergeSection
  cases h : getKey c "DEFAULT" with
  | none =>
      refine ⟨defaultDEFAULTOptions p, by rw [getKey_setKey_self], ?_, ?_, ?_, ?_, ?_, ?_⟩ <;>
        simp [defaultDEFAULTOptions, getKey]
  | some sec0 =>
      refine ⟨mergeOptions sec0 (defaultDEFAULTOptions p), by rw [getKey_setKey_self],
        mergeOptions_default_version _ _, ?_, ?_, ?_, ?_, ?_⟩
      · exact mergeOptions_isSome_of_mem _ _ _ "SAP Opener" (by simp [defaultDEFAULTOptions])
      · exact mergeOptions_isSome_of_mem _ _ _ "0" (by simp [defaultDEFAULTOptions])
      · exact mergeOptions_isSome_of_mem _ _ _ "0" (by simp [defaultDEFAULTOptions])
      · exact mergeOptions_isSome_of_mem _ _ _ p (by simp [defaultDEFAULTOptions])
      · exact mergeOptions_isSome_of_mem _ _ _ "EN" (by simp [defaultDEFAULTOptions])

theorem merge_default_config_eq (c : Config) (r : String) :
    merge_default_config c r =
      mergeSection (mergeSection (mergeSection
        (mergeSection c "DEFAULT" (defaultDEFAULTOptions (find_sapshcut_exe c r)))
        "DEFAULT_SAP_CLIENT" defaultClientOptions)
        "APP" defaultAppOptions)
        "WEB" defaultWebOptions := rfl

theorem mergeSection_eq_self (c : Config) (name : String) (opts : Sect) (sec : Sect)
    (h : getKey c name = some sec)
    (hcond : ∀ kv ∈ opts, if kv.1 = "version" then getKey sec kv.1 = some kv.2
      else (getKey sec kv.1).isSome) :
    mergeSection c name opts = c := by
  simp only [mergeSection, h]
  rw [mergeOptions_eq_self _ _ hcond, setKey_eq_self _ _ _ h]

theorem merged_default_section_facts (c : Config) (r : String) :
    ∃ d, getKey (merge_default_config c r) "DEFAULT" = some d ∧
      getKey d "version" = some CURRENT_VERSION ∧
      (getKey d "app_name").isSome ∧
      (getKey d "position_x").isSome ∧
      (getKey d "position_y").isSome ∧
      (getKey d "sapshcut_path").isSome ∧
      (getKey d "default_sap_lang").isSome := by
  obtain ⟨d, hd1, hfacts⟩ :=
    mergeSection_default_facts c (find_sapshcut_exe c r)
  refine ⟨d, ?_, hfacts⟩
  rw [merge_default_config_eq,
    mergeSection_getKey_ne _ _ _ _ (by decide : ("DEFAULT" : String) ≠ "WEB"),
    mergeSection_getKey_ne _ _ _ _ (by decide : ("DEFAULT" : String) ≠ "APP"),
    mergeSection_getKey_ne _ _ _ _
      (by decide : ("DEFAULT" : String) ≠ "DEFAULT_SAP_CLIENT")]
  exact hd1

/-- C7: merging the built-in defaults is idempotent, every existing
non-`version` key keeps its value, and after any merge the `version`
option of `DEFAULT` is the built-in `CURRENT_VERSION`. -/
theorem merge_default_config_props (c : Config) (r : String) :
    merge_default_config (merge_default_config c r) r = merge_default_config c r ∧
    (∀ name sec k v, getKey c name = some sec → k ≠ "version" →
      getKey sec k = some v →
      ∃ sec', getKey (merge_default_config c r) name = some sec' ∧
        getKey sec' k = some v) ∧
    (∃ d, getKey (merge_default_config c r) "DEFAULT" = some d ∧
      getKey d "version" = some CURRENT_VERSION) := by
  obtain ⟨d, hdm, hver, ha1, ha2, ha3, ha4, ha5⟩ :=
    merged_default_section_facts c r
  obtain ⟨sC, hc1, hcq⟩ := mergeSection_key_isSome
    (mergeSection c "DEFAULT" (defaultDEFAULTOptions (find_sapshcut_exe c r)))
    "DEFAULT_SAP_CLIENT" defaultClientOptions "qg1" "200"
    (by simp [defaultClientOptions])
  have hcm : getKey (merge_default_config c r) "DEFAULT_SAP_CLIENT" = some sC := by
    rw [merge_default_config_eq,
      mergeSection_getKey_ne _ _ _ _ (by decide : ("DEFAULT_SAP_CLIENT" : String) ≠ "WEB"),
      mergeSection_getKey_ne _ _ _ _ (by decide : ("DEFAULT_SAP_CLIENT" : String) ≠ "APP")]
    exact hc1
  obtain ⟨sA, hA1, hAe⟩ := mergeSection_key_isSome
    (mergeSection (mergeSection c "DEFAULT"
      (defaultDEFAULTOptions (find_sapshcut_exe c r)))
      "DEFAULT_SAP_CLIENT" defaultClientOptions)
    "APP" defaultAppOptions "excel"
    "C:\\Program Files (x86)\\Microsoft Office\\root\\Office16\\EXCEL.EXE"
    (by simp [defaultAppOptions])
  have hAm : getKey (merge_default_config c r) "APP" = some sA := by
    rw [merge_default_config_eq,
      mergeSection_getKey_ne _ _ _ _ (by decide : ("APP" : String) ≠ "WEB")]
    exact hA1
  obtain ⟨sW, hW1, hWw⟩ := mergeSection_key_isSome
    (mergeSection (mergeSection (mergeSection c "DEFAULT"
      (defaultDEFAULTOptions (find_sapshcut_exe c r)))
      "DEFAULT_SAP_CLIENT" defaultClientOptions)
      "APP" defaultAppOptions)
    "WEB" defaultWebOptions "w" "https://pl.wikipedia.org/wiki/"
    (by simp [defaultWebOptions])
  have hWm : getKey (merge_default_config c r) "WEB" = some sW := by
    rw [merge_default_config_eq]
    exact hW1
  refine ⟨?_, ?_, ⟨d, hdm, hver⟩⟩
  · have e1 : mergeSection (merge_default_config c r) "DEFAULT"
        (defaultDEFAULTOptions (find_sapshcut_exe (merge_default_config c r) r)) =
        merge_default_config c r := by
      refine mergeSection_eq_self _ _ _ _ hdm ?_
      intro kv hkv
      simp only [defaultDEFAULTOptions, List.mem_cons, List.not_mem_nil, or_false] at hkv
      rcases hkv with rfl | rfl | rfl | rfl | rfl | rfl
      · simpa using ha1
      · simpa using hver
      · simpa using ha2
      · simpa using ha3
      · simpa using ha4
      · simpa using ha5
    have e2 : mergeSection (merge_default_config c r) "DEFAULT_SAP_CLIENT"
        defaultClientOptions = merge_default_config c r := by
      refine mergeSection_eq_self _ _ _ _ hcm ?_
      intro kv hkv
      simp only [defaultClientOptions, List.mem_cons, List.not_mem_nil, or_false] at hkv
      rcases hkv with rfl
      simpa using hcq
    have e3 : mergeSection (merge_default_config c r) "APP"
        defaultAppOptions = merge_default_config c r := by
      refine mergeSection_eq_self _ _ _ _ hAm ?_
      intro kv hkv
      simp only [defaultAppOptions, List.mem_cons, List.not_mem_nil, or_false] at hkv
      rcases hkv with rfl
      simpa using hAe
    have e4 : mergeSection (merge_default_config c r) "WEB"
        defaultWebOptions = merge_default_config c r := by
      refine mergeSection_eq_self _ _ _ _ hWm ?_
      intro kv hkv
      simp only [defaultWebOptions, List.mem_cons, List.not_mem_nil, or_false] at hkv
      rcases hkv with rfl
      simpa using hWw
    rw [merge_default_config_eq (merge_default_config c r) r, e1, e2, e3, e4]
  · intro name sec k v hc hk hv
    obtain ⟨s1, h1, v1⟩ := mergeSection_preserve c "DEFAULT"
      (defaultDEFAULTOptions (find_sapshcut_exe c r)) name sec k v hc hk hv
    obtain ⟨s2, h2, v2⟩ := mergeSection_preserve _ "DEFAULT_SAP_CLIENT"
      defaultClientOptions name s1 k v h1 hk v1
    obtain ⟨s3, h3, v3⟩ := mergeSection_preserve _ "APP"
      defaultAppOptions name s2 k v h2 hk v2
    obtain ⟨s4, h4, v4⟩ := mergeSection_preserve _ "WEB"
      defaultWebOptions name s3 k v h3 hk v3
    rw [merge_default_config_eq]
    exact ⟨s4, h4, v4⟩

theorem merge_default_config_props_witness :
    merge_default_config (merge_default_config
      [("DEFAULT", [("version", "v.0.0.1"), ("custom_key", "keepme")])] "None") "None" =
      merge_default_config
        [("DEFAULT", [("version", "v.0.0.1"), ("custom_key", "keepme")])] "None" ∧
    (∃ sec', getKey (merge_default_config
        [("DEFAULT", [("version", "v.0.0.1"), ("custom_key", "keepme")])] "None")
        "DEFAULT" = some sec' ∧ getKey sec' "custom_key" = some "keepme") ∧
    (∃ d, getKey (merge_default_config
        [("DEFAULT", [("version", "v.0.0.1"), ("custom_key", "keepme")])] "None")
        "DEFAULT" = some d ∧ getKey d "version" = some CURRENT_VERSION) := by
  have h := merge_default_config_props
    [("DEFAULT", [("version", "v.0.0.1"), ("custom_key", "keepme")])] "None"
  exact ⟨h.1,
    h.2.1 "DEFAULT" [("version", "v.0.0.1"), ("custom_key", "keepme")]
      "custom_key" "keepme" (by decide) (by decide) (by decide),
    h.2.2⟩

/-! Window-position persistence (claim C8) and start-up file handling
(claim C9). -/

/-- C8 (amended): writing a position under distinct keys and reloading it
for the same screen extents returns exactly the written pair, except that
a coordinate exceeding its extent is replaced by extent − 200; hence each
loaded coordinate never exceeds its extent (but no lower clamp exists). -/
theorem position_roundtrip (sec : List (String × Int)) (x y : Int)
    (kx ky : String) (w h : Int) (hk : kx ≠ ky) :
    get_position (write_position sec x y kx ky) kx ky w h =
      ((if x > w then w - 200 else x), (if y > h then h - 200 else y)) ∧
    (get_position (write_position sec x y kx ky) kx ky w h).1 ≤ w ∧
    (get_position (write_position sec x y kx ky) kx ky w h).2 ≤ h := by
  have hx : getKey (write_position sec x y kx ky) kx = some x := by
    unfold write_position
    rw [getKey_setKey_ne _ _ _ _ hk, getKey_setKey_self]
  have hy : getKey (write_position sec x y kx ky) ky = some y := by
    unfold write_position
    rw [getKey_setKey_self]
  have hres : get_position (write_position sec x y kx ky) kx ky w h =
      ((if x > w then w - 200 else x), (if y > h then h - 200 else y)) := by
    simp [get_position, hx, hy]
  refine ⟨hres, ?_, ?_⟩
  · rw [hres]; dsimp only; split_ifs with h1 <;> omega
  · rw [hres]; dsimp only; split_ifs with h1 <;> omega

theorem position_roundtrip_witness :
    get_position (write_position [] 5000 10 "px" "py") "px" "py" 1920 1080 =
      (1720, 10) := by
  exact (position_roundtrip [] 5000 10 "px" "py" 1920 1080 (by decide)).1.trans
    (by decide)

/-- C8 counterexample: a negative written coordinate is returned
unchanged by `get_position`, so the loaded position can lie outside the
visible screen bounds. -/
theorem position_outside_screen_cex :
    get_position (write_position [] (-500) 0 "px" "py") "px" "py" 1920 1080 =
      (-500, 0) ∧
    ¬ withinScreen
      (get_position (write_position [] (-500) 0 "px" "py") "px" "py" 1920 1080)
      1920 1080 := by
  have hval : get_position (write_position [] (-500) 0 "px" "py") "px" "py"
      1920 1080 = (-500, 0) := by decide
  refine ⟨hval, ?_⟩
  rw [hval]
  intro hcontra
  exact absurd hcontra.1 (by decide)

/-- C9 counterexample: construction over a corrupt settings file does not
recreate defaults and continue — the uncaught `configparser.ParsingError`
is fatal. -/
theorem corrupt_config_fatal_cex :
    init_config FileState.corrupt "None" =
      Except.error "configparser.ParsingError" := rfl

/-- C9 (amended): a missing settings file is recreated from the built-in
defaults and construction continues (with the merged defaults, whose
`version` is the built-in one); an existing parsable file is merged and
construction continues; only a corrupt file makes construction fail, with
the uncaught parse error. -/
theorem init_config_behavior (r : String) :
    (∃ cfg, init_config FileState.missing r = Except.ok cfg ∧
      ∃ d, getKey cfg "DEFAULT" = some d ∧
        getKey d "version" = some CURRENT_VERSION) ∧
    (∀ c, ∃ cfg, init_config (FileState.valid c) r = Except.ok cfg) ∧
    init_config FileState.corrupt r =
      Except.error "configparser.ParsingError" := by
  refine ⟨⟨merge_default_config (default_config [] r) r, rfl, ?_⟩,
    fun c => ⟨merge_default_config c r, rfl⟩, rfl⟩
  obtain ⟨d, hd, hver, _⟩ := merged_default_section_facts (default_config [] r) r
  exact ⟨d, hd, hver⟩

end SAPpOpener
